import Mathlib

/-!
Shallow embedding of the AiManage server (src/server): the health-check
handler and router from `src/router.rs`, the pool initializer from
`src/model/db.rs`, and the bootstrap sequence from `src/main.rs`.
External collaborators (process environment, the database, the TCP bind)
are modelled as oracles supplied in a `World`; the control
flow is translated directly from the source.
-/

namespace AiManage

/-- HTTP methods, as matched by actix route guards. -/
inductive Method where
  | GET
  | POST
  | PUT
  | DELETE
  deriving DecidableEq, Repr

/-- An HTTP request: method, path, query string, headers and body. -/
structure Request where
  method : Method
  path : String
  query : String
  headers : List (String × String)
  body : String
  deriving DecidableEq, Repr

/-- An HTTP response: status code and body. -/
structure Response where
  status : Nat
  body : String
  deriving DecidableEq, Repr

/-- The error type of `sqlx` as far as this repository observes it:
`Pool::connect` either succeeds or yields some error value. -/
inductive SqlxError where
  | connectionError (detail : String)
  | authenticationFailure (detail : String)
  deriving DecidableEq, Repr

/-- A database connection pool handle, tagged with the connection string it
was opened with (`Pool::<Postgres>::connect(&database_url)`). -/
inductive Pool where
  | mk (database_url : String)
  deriving DecidableEq, Repr

/-- The request context actix builds for a handler invocation: the app data
registered via `.app_data(pool.clone())` plus the request itself. -/
structure RequestContext where
  pool : Pool
  req : Request
  deriving DecidableEq, Repr

/-- Handler `health_check` from `src/router.rs`:
`HttpResponse::Ok().body("Server is working!")`. The handler takes no
request data and reads nothing from its context. -/
def health_check (_ctx : RequestContext) : Response :=
  { status := 200, body := "Server is working!" }

/-- A registered route: method guard, full path, handler. -/
structure Route where
  method : Method
  path : String
  handler : RequestContext → Response

/-- Scoping via `web::scope(pre)`: mounting services under a scope prefixes every
registered path with `pre`. -/
def scopeService (pre : String) (rs : List Route) : List Route :=
  rs.map (fun r => { r with path := pre ++ r.path })

/-- The route the `#[get("/healthCheck")]` attribute registers for
`health_check`. -/
def health_check_route : Route :=
  { method := Method.GET, path := "/healthCheck", handler := health_check }

/-- Router `init` from `src/router.rs`:
`cfg.service(web::scope("/api/v1").service(health_check))`, appending the
scoped route to the routes already registered on the config. -/
def init (cfg : List Route) : List Route :=
  cfg ++ scopeService "/api/v1" [health_check_route]

/-- The default response served when no registered route matches. -/
def notFound : Response := { status := 404, body := "" }

/-- Route dispatch over the registered route table: the first route whose
method guard and path match the request handles it; otherwise the default
not-found response is served. -/
def dispatch (routes : List Route) (ctx : RequestContext) : Response :=
  match routes.find? (fun r =>
      decide (r.method = ctx.req.method) && decide (r.path = ctx.req.path)) with
  | some r => r.handler ctx
  | none => notFound

/-- The app built by the `HttpServer::new` closure in `src/main.rs`: it
injects the pool into the request context and dispatches over the routes
registered by `router::init` on a fresh `App`. -/
def appService (pool : Pool) (req : Request) : Response :=
  dispatch (init []) { pool := pool, req := req }

/-- Outcome of `init_db` from `src/model/db.rs`: the `.expect` on the
missing environment variable panics, `?` propagates the connect error, and
otherwise the pool is returned. -/
inductive InitDbOutcome where
  | panicked (msg : String)
  | err (e : SqlxError)
  | ok (pool : Pool)
  deriving DecidableEq, Repr

/-- Function `init_db` from `src/model/db.rs`, over an environment oracle `env`
(for `std::env::var`) and a connect oracle `connect`
(for `Pool::<Postgres>::connect`):
reads `DATABASE_URL`, panicking with the `.expect` message when absent,
then connects, propagating any connect error with `?`. -/
def init_db (env : String → Option String)
    (connect : String → Except SqlxError Pool) : InitDbOutcome :=
  match env "DATABASE_URL" with
  | none => InitDbOutcome.panicked "DATABASE_URL must be set in .env"
  | some database_url =>
    match connect database_url with
    | Except.error e => InitDbOutcome.err e
    | Except.ok pool => InitDbOutcome.ok pool

/-- Observable events of the bootstrap sequence in `src/main.rs`, in the
order they happen. -/
inductive BootEvent where
  | envRead (name : String)
  | connectAttempt (url : String)
  | listenerBound (addr : String) (port : Nat)
  deriving DecidableEq, Repr

/-- Final state of the bootstrap sequence in `src/main.rs`. -/
inductive StartupOutcome where
  | panicked (msg : String)
  | bindError
  | serving (pool : Pool)
  deriving DecidableEq, Repr

/-- The external world `main` runs in: the variables of the `.env` file when the
file exists and is readable (`dotenvy::dotenv()`), the pre-existing process
environment, the database connect oracle, and whether the TCP bind on
127.0.0.1:8080 succeeds. -/
structure World where
  dotenvFile : Option (List (String × String))
  env0 : String → Option String
  connect : String → Except SqlxError Pool
  bindOk : Bool

/-- Effect of `dotenvy::dotenv().ok()` on the environment: when the file is
absent or unreadable the result is discarded and the environment is left as
is; when it loads, file variables fill in names the environment does not
already define (dotenvy does not override existing variables). -/
def applyDotenv (file : Option (List (String × String)))
    (env : String → Option String) : String → Option String :=
  match file with
  | none => env
  | some vars => fun name =>
    match env name with
    | some v => some v
    | none => (vars.find? (fun p => decide (p.1 = name))).map (fun p => p.2)

/-- The events `init_db` produces: the environment read, then the single
connection attempt when a URL was found. -/
def init_db_events (env : String → Option String) : List BootEvent :=
  match env "DATABASE_URL" with
  | none => [BootEvent.envRead "DATABASE_URL"]
  | some url => [BootEvent.envRead "DATABASE_URL", BootEvent.connectAttempt url]

/-- The process environment as `std::env::var` sees it after the
`dotenvy::dotenv().ok()` call at the top of `main`. -/
def bootEnv (w : World) : String → Option String :=
  applyDotenv w.dotenvFile w.env0

/-- Function `main` from `src/main.rs` as a trace of bootstrap events plus an
outcome: `dotenvy::dotenv().ok()`, then
`init_db().await.expect("Failed to connect to DB")` (a panic on `Err`),
then `.bind(("127.0.0.1", 8080))?` followed by `.run()`. -/
def mainBoot (w : World) : List BootEvent × StartupOutcome :=
  match init_db (bootEnv w) w.connect with
  | InitDbOutcome.panicked msg =>
    (init_db_events (bootEnv w), StartupOutcome.panicked msg)
  | InitDbOutcome.err _ =>
    (init_db_events (bootEnv w), StartupOutcome.panicked "Failed to connect to DB")
  | InitDbOutcome.ok pool =>
    if w.bindOk then
      (init_db_events (bootEnv w) ++ [BootEvent.listenerBound "127.0.0.1" 8080],
       StartupOutcome.serving pool)
    else
      (init_db_events (bootEnv w), StartupOutcome.bindError)

/-- Startup failure taxonomy of the spec, recovered from the diagnostic the
process dies with: the `.expect` message in `init_db` marks missing
configuration, the `.expect` message in `main` marks a failed connection. -/
inductive FailureCondition where
  | configurationMissing
  | connectionError
  deriving DecidableEq, Repr

/-- Classify a startup outcome into the failure taxonomy of the spec. -/
def classifyFailure : StartupOutcome → Option FailureCondition
  | StartupOutcome.panicked msg =>
    if msg = "DATABASE_URL must be set in .env" then
      some FailureCondition.configurationMissing
    else if msg = "Failed to connect to DB" then
      some FailureCondition.connectionError
    else none
  | _ => none

/-- Request service after bootstrap: requests are served only once the
outcome is `serving`, through the app closure that captured the pool. -/
def serveRequest : StartupOutcome → Request → Option Response
  | StartupOutcome.serving pool, req => some (appService pool req)
  | _, _ => none

/-! Concrete fixtures used by witnesses. -/

/-- A sample connection string. -/
def sampleUrl : String := "postgres://localhost:5432/aimanage"

/-- A sample pool, as returned by a successful connect on `sampleUrl`. -/
def samplePool : Pool := Pool.mk sampleUrl

/-- A sample request for the health endpoint. -/
def sampleRequest : Request :=
  { method := Method.GET, path := "/api/v1/healthCheck", query := "",
    headers := [], body := "" }

/-- Recognizer for connection-attempt events, used to count attempts. -/
def isConnectAttempt : BootEvent → Bool
  | BootEvent.connectAttempt _ => true
  | _ => false

/-- A world with no `.env` file and an empty process environment. -/
def emptyWorld : World :=
  { dotenvFile := none, env0 := fun _ => none,
    connect := fun u => Except.ok (Pool.mk u), bindOk := true }

/-- A world with no `.env` file where the process environment already
defines `DATABASE_URL` and the database is reachable. -/
def noDotenvWorld : World :=
  { dotenvFile := none, env0 := fun _ => some sampleUrl,
    connect := fun u => Except.ok (Pool.mk u), bindOk := true }

/-- A world where `DATABASE_URL` is set but the database refuses the
connection. -/
def failConnectWorld : World :=
  { dotenvFile := none, env0 := fun _ => some sampleUrl,
    connect := fun _ => Except.error (SqlxError.connectionError "connection refused"),
    bindOk := true }

/-! Helper lemmas shared by the claims. -/

theorem listenerBound_not_mem_init_db_events (env : String → Option String)
    (a : String) (p : Nat) : BootEvent.listenerBound a p ∉ init_db_events env := by
  unfold init_db_events
  cases env "DATABASE_URL" <;> simp

theorem init_db_events_attempts_le_one (env : String → Option String) :
    ((init_db_events env).filter isConnectAttempt).length ≤ 1 := by
  unfold init_db_events
  cases env "DATABASE_URL" <;> simp [isConnectAttempt]

/-! The claims. -/

/-- C1: every invocation of the health-check handler, whatever the request
and whatever pool sits in the context, returns status 200 with body exactly
"Server is working!"; being a total function of the context that ignores
the pool, it has no side effects, reads nothing from the pool, and cannot
fail. -/
theorem health_check_always_ok (ctx : RequestContext) :
    health_check ctx = { status := 200, body := "Server is working!" } ∧
    ∀ p : Pool, health_check { ctx with pool := p } = health_check ctx := by
  exact ⟨rfl, fun _ => rfl⟩

/-- Witness for C1 at a concrete context. -/
theorem health_check_always_ok_witness :
    health_check { pool := samplePool, req := sampleRequest } =
      { status := 200, body := "Server is working!" } :=
  (health_check_always_ok { pool := samplePool, req := sampleRequest }).1

/-- C2: `init` mounts the scope "/api/v1" and registers within it the GET
"/healthCheck" handler, so the route table gains exactly the route
GET /api/v1/healthCheck, and a GET request at that path reaches
`health_check`. -/
theorem init_mounts_scoped_health (cfg : List Route) :
    (init cfg).map (fun r => (r.method, r.path)) =
      cfg.map (fun r => (r.method, r.path)) ++ [(Method.GET, "/api/v1/healthCheck")] ∧
    ∀ (pool : Pool) (req : Request),
      req.method = Method.GET → req.path = "/api/v1/healthCheck" →
      appService pool req = health_check { pool := pool, req := req } := by
  constructor
  · simp [init, scopeService, health_check_route]
  · intro pool req hm hp
    simp [appService, dispatch, init, scopeService, health_check_route,
      List.find?, hm, hp]

/-- Witness for the reachability conjunct of C2 at a concrete request. -/
theorem init_mounts_scoped_health_witness :
    appService samplePool sampleRequest =
      health_check { pool := samplePool, req := sampleRequest } :=
  (init_mounts_scoped_health []).2 samplePool sampleRequest rfl rfl

/-- C6: any request whose method is not GET or whose path is not
/api/v1/healthCheck matches no registered route and is served the
not-found response. -/
theorem unmatched_request_not_found (pool : Pool) (req : Request)
    (h : req.method ≠ Method.GET ∨ req.path ≠ "/api/v1/healthCheck") :
    appService pool req = notFound := by
  rcases h with h | h <;>
    simp [appService, dispatch, init, scopeService, health_check_route,
      List.find?, Ne.symm h]

/-- Witness for C6 at a concrete unmatched request. -/
theorem unmatched_request_not_found_witness :
    appService samplePool
      { method := Method.GET, path := "/api/v1/other", query := "",
        headers := [], body := "" } = notFound :=
  unmatched_request_not_found samplePool _ (Or.inr (by decide))

/-- C10: the health-check handler is deterministic; any two invocations,
on any two contexts (different requests, different pools, different
histories), produce the identical response. -/
theorem health_check_deterministic (ctx1 ctx2 : RequestContext) :
    health_check ctx1 = health_check ctx2 := rfl

/-- Witness for C10 at two distinct concrete contexts. -/
theorem health_check_deterministic_witness :
    health_check { pool := samplePool, req := sampleRequest } =
      health_check { pool := Pool.mk "postgres://other/db",
                     req := { method := Method.POST, path := "/x", query := "a=1",
                              headers := [("X", "y")], body := "b" } } :=
  health_check_deterministic _ _

/-- C3: in every world whose environment (after the dotenv load) lacks
`DATABASE_URL`, startup panics with the configuration-missing diagnostic
and the trace never records a bound listener. -/
theorem missing_database_url_fatal (w : World)
    (h : bootEnv w "DATABASE_URL" = none) :
    (mainBoot w).2 = StartupOutcome.panicked "DATABASE_URL must be set in .env" ∧
    classifyFailure (mainBoot w).2 = some FailureCondition.configurationMissing ∧
    ∀ a p, BootEvent.listenerBound a p ∉ (mainBoot w).1 := by
  have hm : mainBoot w =
      (init_db_events (bootEnv w),
       StartupOutcome.panicked "DATABASE_URL must be set in .env") := by
    simp [mainBoot, init_db, h]
  refine ⟨by rw [hm], by rw [hm]; simp [classifyFailure], ?_⟩
  intro a p
  rw [hm]
  exact listenerBound_not_mem_init_db_events _ a p

/-- Witness for C3 in a concrete world with an empty environment. -/
theorem missing_database_url_fatal_witness :
    (mainBoot emptyWorld).2 =
      StartupOutcome.panicked "DATABASE_URL must be set in .env" :=
  (missing_database_url_fatal emptyWorld rfl).1

/-- C4: whenever pool initialization does not produce a pool (missing
configuration or any connect failure), startup panics, no listener is ever
bound, and at most one connection attempt appears in the trace (no retry). -/
theorem pool_init_failure_fatal (w : World)
    (h : ∀ p, init_db (bootEnv w) w.connect ≠ InitDbOutcome.ok p) :
    (∃ msg, (mainBoot w).2 = StartupOutcome.panicked msg) ∧
    (∀ a p, BootEvent.listenerBound a p ∉ (mainBoot w).1) ∧
    ((mainBoot w).1.filter isConnectAttempt).length ≤ 1 := by
  rcases hi : init_db (bootEnv w) w.connect with msg | e | p
  · have hm : mainBoot w =
        (init_db_events (bootEnv w), StartupOutcome.panicked msg) := by
      simp [mainBoot, hi]
    exact ⟨⟨msg, by rw [hm]⟩,
      fun a p => by rw [hm]; exact listenerBound_not_mem_init_db_events _ a p,
      by rw [hm]; exact init_db_events_attempts_le_one _⟩
  · have hm : mainBoot w =
        (init_db_events (bootEnv w),
         StartupOutcome.panicked "Failed to connect to DB") := by
      simp [mainBoot, hi]
    exact ⟨⟨"Failed to connect to DB", by rw [hm]⟩,
      fun a p => by rw [hm]; exact listenerBound_not_mem_init_db_events _ a p,
      by rw [hm]; exact init_db_events_attempts_le_one _⟩
  · exact absurd hi (h p)

/-- Witness for C4 in a concrete world whose database refuses the
connection. -/
theorem pool_init_failure_fatal_witness :
    ∃ msg, (mainBoot failConnectWorld).2 = StartupOutcome.panicked msg :=
  (pool_init_failure_fatal failConnectWorld (by
    intro p
    simp [init_db, bootEnv, applyDotenv, failConnectWorld])).1

/-- C5: when startup succeeds (the outcome is serving), the trace records
the listener bound at the loopback address 127.0.0.1 on TCP port 8080, and
no listener at any other address or port is ever bound. -/
theorem startup_success_binds_loopback_8080 (w : World) (p : Pool)
    (h : (mainBoot w).2 = StartupOutcome.serving p) :
    BootEvent.listenerBound "127.0.0.1" 8080 ∈ (mainBoot w).1 ∧
    ∀ a pt, BootEvent.listenerBound a pt ∈ (mainBoot w).1 →
      a = "127.0.0.1" ∧ pt = 8080 := by
  rcases hi : init_db (bootEnv w) w.connect with msg | e | q
  · simp [mainBoot, hi] at h
  · simp [mainBoot, hi] at h
  · by_cases hb : w.bindOk
    · have hm : mainBoot w =
          (init_db_events (bootEnv w) ++ [BootEvent.listenerBound "127.0.0.1" 8080],
           StartupOutcome.serving q) := by
        simp [mainBoot, hi, hb]
      constructor
      · rw [hm]; simp
      · intro a pt hmem
        rw [hm] at hmem
        rcases List.mem_append.mp hmem with hin | hin
        · exact absurd hin (listenerBound_not_mem_init_db_events _ a pt)
        · simp at hin
          exact ⟨hin.1, hin.2⟩
    · simp [mainBoot, hi, hb] at h

/-- Witness for C5 in a concrete world that starts up successfully. -/
theorem startup_success_binds_loopback_8080_witness :
    BootEvent.listenerBound "127.0.0.1" 8080 ∈ (mainBoot noDotenvWorld).1 :=
  (startup_success_binds_loopback_8080 noDotenvWorld samplePool (by
    simp [mainBoot, init_db, bootEnv, applyDotenv, noDotenvWorld, samplePool])).1

/-- C7: when startup reaches serving, the trace is exactly the environment
read, then the single connection attempt, then the listener bind, in that
order; a request is served only in the serving outcome; and the request
context handed to dispatch carries the pool captured by the app closure. -/
theorem bootstrap_ordered (w : World) (p : Pool)
    (h : (mainBoot w).2 = StartupOutcome.serving p) :
    (∃ url, bootEnv w "DATABASE_URL" = some url ∧
      (mainBoot w).1 = [BootEvent.envRead "DATABASE_URL",
        BootEvent.connectAttempt url,
        BootEvent.listenerBound "127.0.0.1" 8080]) ∧
    (∀ s req r, serveRequest s req = some r →
      ∃ q, s = StartupOutcome.serving q) ∧
    (∀ (q : Pool) (req : Request),
      serveRequest (StartupOutcome.serving q) req =
        some (dispatch (init []) { pool := q, req := req })) := by
  refine ⟨?_, ?_, fun q req => rfl⟩
  · rcases hi : init_db (bootEnv w) w.connect with msg | e | q
    · simp [mainBoot, hi] at h
    · simp [mainBoot, hi] at h
    · by_cases hb : w.bindOk
      · rcases hu : bootEnv w "DATABASE_URL" with _ | url
        · unfold init_db at hi; rw [hu] at hi; exact absurd hi (by simp)
        · refine ⟨url, rfl, ?_⟩
          simp [mainBoot, hi, hb, init_db_events, hu]
      · simp [mainBoot, hi, hb] at h
  · intro s req r hs
    cases s with
    | panicked msg => simp [serveRequest] at hs
    | bindError => simp [serveRequest] at hs
    | serving q => exact ⟨q, rfl⟩

/-- Witness for C7 in a concrete world that starts up successfully. -/
theorem bootstrap_ordered_witness :
    ∃ url, bootEnv noDotenvWorld "DATABASE_URL" = some url ∧
      (mainBoot noDotenvWorld).1 = [BootEvent.envRead "DATABASE_URL",
        BootEvent.connectAttempt url,
        BootEvent.listenerBound "127.0.0.1" 8080] :=
  (bootstrap_ordered noDotenvWorld samplePool (by
    simp [mainBoot, init_db, bootEnv, applyDotenv, noDotenvWorld, samplePool])).1

/-- C8: an `Err` value of `init_db` can only arise from the connection
step; when `DATABASE_URL` is absent, `init_db` panics through `.expect`
rather than returning `Err`, so missing configuration is never represented
in the `Result`. -/
theorem init_db_err_only_from_connect (env : String → Option String)
    (connect : String → Except SqlxError Pool) :
    (∀ e, init_db env connect = InitDbOutcome.err e →
      ∃ url, env "DATABASE_URL" = some url ∧ connect url = Except.error e) ∧
    (env "DATABASE_URL" = none →
      init_db env connect = InitDbOutcome.panicked "DATABASE_URL must be set in .env" ∧
      ∀ e, init_db env connect ≠ InitDbOutcome.err e) := by
  constructor
  · intro e he
    unfold init_db at he
    rcases hu : env "DATABASE_URL" with _ | url
    · rw [hu] at he; exact absurd he (by simp)
    · rw [hu] at he
      simp only [] at he
      refine ⟨url, rfl, ?_⟩
      rcases hc : connect url with e2 | q
      · rw [hc] at he
        simp at he
        rw [he]
      · rw [hc] at he; simp at he
  · intro hn
    unfold init_db
    rw [hn]
    exact ⟨rfl, by simp⟩

/-- Witness for C8 on a concrete environment lacking `DATABASE_URL`. -/
theorem init_db_err_only_from_connect_witness :
    init_db (fun _ => none) (fun u => Except.ok (Pool.mk u)) =
      InitDbOutcome.panicked "DATABASE_URL must be set in .env" :=
  ((init_db_err_only_from_connect (fun _ => none)
      (fun u => Except.ok (Pool.mk u))).2 rfl).1

/-- C9: a missing `.env` file is not an error: its load result is
discarded, the environment is left exactly as the process environment, and
startup succeeds with no `.env` file when `DATABASE_URL` is set in the
process environment. -/
theorem dotenv_absent_not_error :
    (∀ env : String → Option String, applyDotenv none env = env) ∧
    noDotenvWorld.dotenvFile = none ∧
    (mainBoot noDotenvWorld).2 = StartupOutcome.serving samplePool := by
  refine ⟨fun env => rfl, rfl, ?_⟩
  simp [mainBoot, init_db, bootEnv, applyDotenv, noDotenvWorld, samplePool]

end AiManage
